import Mathlib

/-!
Shallow embedding of `src/scvi/models/vae.py` (scVI variational autoencoder
models) and proofs about its specified behaviour.

Modelling conventions:
* torch tensors are modelled by `SCVI.Tensor`, nested lists over an ordered
  field `α` (real arithmetic; floating point rounding is out of scope);
* the encoder / decoder neural networks, the log-likelihood density
  functions (`log_zinb_positive`, `log_nb_positive`), torch distribution
  primitives (`kl_divergence`, `Normal.log_prob`, `Poisson.log_prob`) and
  the `one_hot` utility are external collaborators of the file: they are
  embedded as abstract function fields of structures (`Prims`, `EncoderM`,
  `DecoderM`, model records), constrained only by their fixed functional
  contracts where a theorem needs them;
* Python `assert` failures, `raise NotImplementedError` and the unbound
  local variable error of `_reconstruction_loss` are modelled by `Except`
  with the `Err` error type;
* the global torch random number generator is modelled by an explicit
  state of type `RNG`, threaded through the stochastic calls of the
  `LogNormalPoissonVAE` class (`torch.manual_seed 42` sets that state).
-/

namespace SCVI

/-- Error outcomes of the Python code: a failing `assert`, an explicit
`raise NotImplementedError`, and the `UnboundLocalError` raised when a
function body never assigns the variable it returns. -/
inductive Err where
  | assertionError
  | notImplemented
  | unboundLocal
deriving DecidableEq

/-- The dispersion modes of the `dispersion` constructor argument:
`'gene'`, `'gene-batch'`, `'gene-label'`, `'gene-cell'`. -/
inductive Dispersion where
  | gene
  | geneBatch
  | geneLabel
  | geneCell
deriving DecidableEq

/-- A torch tensor of dimension 0, 1, 2 or 3, as nested lists. -/
inductive Tensor (α : Type) where
  | scalar (x : α)
  | vec (v : List α)
  | mat (m : List (List α))
  | cube (c : List (List (List α)))
deriving DecidableEq

/-- Matrices: 2-dimensional raw tensor data. -/
abbrev Mat (α : Type) := List (List α)

/-- Vectors: 1-dimensional raw tensor data. -/
abbrev Vec (α : Type) := List α

/-- Global torch RNG state (`torch.manual_seed` overwrites it). -/
abbrev RNG := Nat

/-- Model of `torch.manual_seed n`: the RNG state determined by seed `n`. -/
def manualSeed (n : Nat) : RNG := n

variable {α : Type}

/-- Number of dimensions of a tensor (`t.dim()` in torch). -/
def Tensor.dim : Tensor α → Nat
  | .scalar _ => 0
  | .vec _ => 1
  | .mat _ => 2
  | .cube _ => 3

/-- Shape of a tensor (`t.size()` / `t.shape` in torch), read off the
leading entries of a rectangular tensor. -/
def Tensor.shape : Tensor α → List Nat
  | .scalar _ => []
  | .vec v => [v.length]
  | .mat m => [m.length, (m.headD []).length]
  | .cube c => [c.length, (c.headD []).length, ((c.headD []).headD []).length]

/-- Elementwise map over a tensor. -/
def Tensor.map (f : α → α) : Tensor α → Tensor α
  | .scalar x => .scalar (f x)
  | .vec v => .vec (v.map f)
  | .mat m => .mat (m.map (List.map f))
  | .cube c => .cube (c.map (fun m => m.map (List.map f)))

/-- The 2-dimensional data of a tensor (defaults to `[]` off the `mat`
constructor; used where the Python code relies on a tensor being 2-D). -/
def Tensor.matD : Tensor α → Mat α
  | .mat m => m
  | _ => []

/-- The 1-dimensional data of a tensor. -/
def Tensor.vecD : Tensor α → Vec α
  | .vec v => v
  | _ => []

/-- Row sums of a matrix. -/
def rowSums [AddCommMonoid α] (m : Mat α) : Vec α :=
  m.map List.sum

/-- Sum over the last dimension (`t.sum(dim=-1)`). -/
def Tensor.sumLastDim [AddCommMonoid α] : Tensor α → Tensor α
  | .scalar x => .scalar x
  | .vec v => .scalar v.sum
  | .mat m => .vec (rowSums m)
  | .cube c => .mat (c.map rowSums)

/-- Sum over dimension 1 (`t.sum(dim=1)`); in the Python code this is only
applied to 2-dimensional tensors, where dimension 1 is the last one. -/
def Tensor.sumDim1 [AddCommMonoid α] : Tensor α → Tensor α
  | .mat m => .vec (rowSums m)
  | t => t


/-- Elementwise combination of two tensors of the same layout. -/
def Tensor.zipWith (f : α → α → α) : Tensor α → Tensor α → Tensor α
  | .scalar a, .scalar b => .scalar (f a b)
  | .vec a, .vec b => .vec (List.zipWith f a b)
  | .mat a, .mat b => .mat (List.zipWith (List.zipWith f) a b)
  | .cube a, .cube b => .cube (List.zipWith (fun x y => List.zipWith (List.zipWith f) x y) a b)
  | t, _ => t

/-- All entries of a tensor satisfy a predicate. -/
def Tensor.Forall (p : α → Prop) : Tensor α → Prop
  | .scalar x => p x
  | .vec v => ∀ x ∈ v, p x
  | .mat m => ∀ r ∈ m, ∀ x ∈ r, p x
  | .cube c => ∀ m ∈ c, ∀ r ∈ m, ∀ x ∈ r, p x

instance (p : α → Prop) [DecidablePred p] : ∀ t : Tensor α, Decidable (t.Forall p)
  | .scalar x => inferInstanceAs (Decidable (p x))
  | .vec v => List.decidableBAll p v
  | .mat m => List.decidableBAll _ m
  | .cube c => List.decidableBAll _ c

/-- Pointwise zip of three equally shaped lists. -/
def zip3 {β γ δ ε : Type} (f : β → γ → δ → ε) : List β → List γ → List δ → List ε
  | a :: as, b :: bs, c :: cs => f a b c :: zip3 f as bs cs
  | _, _, _ => []

/-- Pointwise zip of four equally shaped lists. -/
def zip4 {β γ δ ε ζ : Type} (f : β → γ → δ → ε → ζ) :
    List β → List γ → List δ → List ε → List ζ
  | a :: as, b :: bs, c :: cs, d :: ds => f a b c d :: zip4 f as bs cs ds
  | _, _, _, _ => []

/-- Elementwise zip of three matrices. -/
def map3Mat (f : α → α → α → α) (a b c : Mat α) : Mat α :=
  zip3 (fun ra rb rc => zip3 f ra rb rc) a b c

/-- Elementwise zip of four matrices. -/
def map4Mat (f : α → α → α → α → α) (a b c d : Mat α) : Mat α :=
  zip4 (fun ra rb rc rd => zip4 f ra rb rc rd) a b c d

/-- Elementwise map over a matrix. -/
def mapMat (f : α → α) (m : Mat α) : Mat α :=
  m.map (List.map f)

/-- Dot product of two rows. -/
def dotV [Mul α] [AddCommMonoid α] (a b : List α) : α :=
  (List.zipWith (fun x y => x * y) a b).sum

/-- One-hot encoding (the `scvi.models.utils.one_hot` collaborator,
consumed via its fixed functional contract): index list to 0/1 matrix
with `n` columns. -/
def oneHot [Zero α] [One α] (idx : List Nat) (n : Nat) : Mat α :=
  idx.map (fun i => (List.range n).map (fun j => if j = i then (1 : α) else 0))

/-- Model of `torch.nn.functional.linear inp w = inp @ w.T`:
`inp : (b, k)`, `w : (m, k)`, result `(b, m)`. -/
def linearF [Mul α] [AddCommMonoid α] (inp w : Mat α) : Mat α :=
  inp.map (fun row => w.map (fun wrow => dotV row wrow))

/-- Scalar-level external primitives of the torch numeric library, with
the contracts the Python code relies on.  `klNormal loc1 scale1 loc2
scale2` is the KL divergence of `Normal loc1 scale1` from `Normal loc2
scale2`; `normalLogProb loc scale x` is the log-density of `Normal loc
scale` at `x`; `poissonLogProb rate x` the Poisson log-mass; `exp` is
torch.exp, which is strictly positive on real inputs. -/
structure Prims (α : Type) [LinearOrderedCommRing α] where
  exp : α → α
  log : α → α
  sqrt : α → α
  klNormal : α → α → α → α → α
  normalLogProb : α → α → α → α
  poissonLogProb : α → α → α
  divN : α → Nat → α
  exp_pos : ∀ x, 0 < exp x

variable [LinearOrderedCommRing α]

/-- Mean over dimension 0 (`t.mean(dim=0)`, applied to 1-D tensors): the
sum divided by the length, with the scalar division performed by the
torch primitive `divN`. -/
def meanDim0 (P : Prims α) : Tensor α → Tensor α
  | .vec v => .scalar (P.divN v.sum v.length)
  | t => t

/-- The `torch.log (1 + x)` pre-transform applied when `log_variational`
is configured. -/
def logTransform (P : Prims α) (x : Mat α) : Mat α :=
  mapMat (fun t => P.log (1 + t)) x

/-- Elementwise `kl_divergence (Normal loc1 (sqrt v1)) (Normal loc2 (sqrt v2))`
over matrices, as the Python code builds it for the library-size term. -/
def klNormalMat (P : Prims α) (loc1 v1 loc2 v2 : Mat α) : Mat α :=
  map4Mat (fun m1 w1 m2 w2 => P.klNormal m1 (P.sqrt w1) m2 (P.sqrt w2)) loc1 v1 loc2 v2

/-- Elementwise `Normal(loc, sqrt v).log_prob x` over matrices. -/
def normalLogProbMat (P : Prims α) (loc v x : Mat α) : Mat α :=
  map3Mat (fun m w t => P.normalLogProb m (P.sqrt w) t) loc v x

/-- The `Encoder` collaborator of the VAE classes (external module,
consumed via its contract): `encode x y` returns the posterior mean,
posterior variance and a reparameterized sample; `sample m v` draws from
the distribution with the given (expanded) parameters; `logProb m v z`
is `distrib(m, v).log_prob z`; `klTo m v pm pv` is
`kl_divergence (distrib m v) (distrib pm pv)`. -/
structure EncoderM (α : Type) where
  encode : Mat α → List Nat → Mat α × Mat α × Mat α
  sample : Tensor α → Tensor α → Tensor α
  logProb : Tensor α → Tensor α → Tensor α → Tensor α
  klTo : Tensor α → Tensor α → Tensor α → Tensor α → Tensor α

/-- The `DecoderSCVI` collaborator: `decode dispersion z library
batch_index y` returns `(px_scale, px_r, px_rate, px_dropout)`. -/
structure DecoderM (α : Type) where
  decode : Dispersion → Tensor α → Tensor α → List Nat → List Nat →
    Tensor α × Tensor α × Tensor α × Tensor α

/-- The state of a `VAE` instance: constructor hyperparameters, the
`px_r` dispersion parameter (a vector for `'gene'`, a matrix for
`'gene-batch'` / `'gene-label'`, absent for `'gene-cell'`), the two
encoders, the decoder, and the external log-likelihood collaborators
`log_zinb_positive` / `log_nb_positive` (which reduce over the gene
dimension and return one value per cell). -/
structure VAEModel (α : Type) where
  n_input : Nat
  n_batch : Nat
  n_labels : Nat
  n_latent : Nat
  dispersion : Dispersion
  log_variational : Bool
  reconstruction_loss : String
  z_full_cov : Bool
  px_r : Tensor α
  z_encoder : EncoderM α
  l_encoder : EncoderM α
  decoder : DecoderM α
  log_zinb_positive : Mat α → Tensor α → Tensor α → Tensor α → Vec α
  log_nb_positive : Mat α → Tensor α → Tensor α → Vec α

/-- Output record of `VAE.inference`. -/
structure InfOut (α : Type) where
  px_scale : Tensor α
  px_r : Tensor α
  px_rate : Tensor α
  px_dropout : Tensor α
  qz_m : Tensor α
  qz_v : Tensor α
  z : Tensor α
  ql_m : Tensor α
  ql_v : Tensor α
  library : Tensor α
deriving DecidableEq

/-- Identity matrix (`torch.eye n`). -/
def eyeMat (n : Nat) : Mat α :=
  (List.range n).map (fun i => (List.range n).map (fun j => if i = j then (1 : α) else 0))

/-- Source `VAE.get_prior_params`: a zero mean of size `n_latent` and a
scale that is the identity matrix under full covariance, the all-ones
vector otherwise. -/
def VAEModel.get_prior_params (M : VAEModel α) : Tensor α × Tensor α :=
  (Tensor.vec (List.replicate M.n_latent (0 : α)),
   if M.z_full_cov then Tensor.mat (eyeMat M.n_latent)
   else Tensor.vec (List.replicate M.n_latent (1 : α)))

/-- The input transform at the top of `inference`: `log(1+x)` when
`log_variational` is set. -/
def VAE.xTrans (P : Prims α) (M : VAEModel α) (x : Mat α) : Mat α :=
  if M.log_variational then logTransform P x else x

/-- The `z_encoder` call of `inference`. -/
def VAE.encZ (P : Prims α) (M : VAEModel α) (x : Mat α) (y : List Nat) :
    Mat α × Mat α × Mat α :=
  M.z_encoder.encode (VAE.xTrans P M x) y

/-- The `l_encoder` call of `inference`. -/
def VAE.encL (P : Prims α) (M : VAEModel α) (x : Mat α) :
    Mat α × Mat α × Mat α :=
  M.l_encoder.encode (VAE.xTrans P M x) []

/-- The dispersion-resolution block of `inference` (source lines 226-232):
the mode-specific raw value followed by `torch.exp`. -/
def resolvePxR (P : Prims α) (M : VAEModel α) (batch_index y : List Nat)
    (px_r_dec : Tensor α) : Tensor α :=
  let raw : Tensor α :=
    match M.dispersion with
    | .geneLabel => Tensor.mat (linearF (oneHot y M.n_labels) M.px_r.matD)
    | .geneBatch => Tensor.mat (linearF (oneHot batch_index M.n_batch) M.px_r.matD)
    | .gene => M.px_r
    | .geneCell => px_r_dec
  raw.map P.exp

/-- Source `VAE.inference` specialised to `n_samples = 1` (the default of
every internal call): encode, decode, resolve dispersion.  Total: this
path contains no assertion. -/
def VAE.inferenceOne (P : Prims α) (M : VAEModel α) (x : Mat α)
    (batch_index y : List Nat) : InfOut α :=
  let zz := VAE.encZ P M x y
  let ll := VAE.encL P M x
  let qz_m := zz.1
  let qz_v := zz.2.1
  let z := zz.2.2
  let ql_m := ll.1
  let ql_v := ll.2.1
  let library := ll.2.2
  let dec := M.decoder.decode M.dispersion (Tensor.mat z) (Tensor.mat library) batch_index y
  { px_scale := dec.1
    px_r := resolvePxR P M batch_index y dec.2.1
    px_rate := dec.2.2.1
    px_dropout := dec.2.2.2
    qz_m := Tensor.mat qz_m
    qz_v := Tensor.mat qz_v
    z := Tensor.mat z
    ql_m := Tensor.mat ql_m
    ql_v := Tensor.mat ql_v
    library := Tensor.mat library }

/-- Source `VAE.inference` (lines 206-234).  With `n_samples > 1` the code
first asserts `not self.z_full_cov`, then expands the posterior
parameters along a new leading dimension and redraws `z` and `library`;
with `n_samples = 1` it is `inferenceOne`. -/
def VAE.inference (P : Prims α) (M : VAEModel α) (x : Mat α)
    (batch_index y : List Nat) (n_samples : Nat) : Except Err (InfOut α) :=
  if n_samples > 1 then
    if M.z_full_cov then .error .assertionError
    else
      let zz := VAE.encZ P M x y
      let ll := VAE.encL P M x
      let qz_m := Tensor.cube (List.replicate n_samples zz.1)
      let qz_v := Tensor.cube (List.replicate n_samples zz.2.1)
      let ql_m := Tensor.cube (List.replicate n_samples ll.1)
      let ql_v := Tensor.cube (List.replicate n_samples ll.2.1)
      let z := M.z_encoder.sample qz_m qz_v
      let library := M.l_encoder.sample ql_m ql_v
      let dec := M.decoder.decode M.dispersion z library batch_index y
      .ok
        { px_scale := dec.1
          px_r := resolvePxR P M batch_index y dec.2.1
          px_rate := dec.2.2.1
          px_dropout := dec.2.2.2
          qz_m := qz_m
          qz_v := qz_v
          z := z
          ql_m := ql_m
          ql_v := ql_v
          library := library }
  else .ok (VAE.inferenceOne P M x batch_index y)

/-- Source `VAE._reconstruction_loss`: negated log-likelihood for
`'zinb'` and `'nb'`; any other string leaves the result variable
unassigned, which raises at the `return` (modelled by `unboundLocal`). -/
def VAE.reconstructionLoss (M : VAEModel α) (x : Mat α)
    (px_rate px_r px_dropout : Tensor α) : Except Err (Vec α) :=
  if M.reconstruction_loss = "zinb" then
    .ok ((M.log_zinb_positive x px_rate px_r px_dropout).map (fun t => -t))
  else if M.reconstruction_loss = "nb" then
    .ok ((M.log_nb_positive x px_rate px_r).map (fun t => -t))
  else .error .unboundLocal

/-- Source `VAE.forward` (lines 236-265): inference, the two KL terms,
the reconstruction loss, returning
`(reconst_loss + kl_divergence_l, kl_divergence_z)`. -/
def VAE.forward (P : Prims α) (M : VAEModel α)
    (x local_l_mean local_l_var : Mat α) (batch_index y : List Nat) :
    Except Err (Vec α × Tensor α) :=
  let o := VAE.inferenceOne P M x batch_index y
  let ps := M.get_prior_params
  let klz0 := M.z_encoder.klTo o.qz_m o.qz_v ps.1 ps.2
  let kl_divergence_z := if klz0.dim = 2 then klz0.sumDim1 else klz0
  let kl_divergence_l :=
    rowSums (klNormalMat P o.ql_m.matD o.ql_v.matD local_l_mean local_l_var)
  let kl_divergence := kl_divergence_z
  match VAE.reconstructionLoss M x o.px_rate o.px_r o.px_dropout with
  | .error e => .error e
  | .ok reconst_loss =>
      .ok (List.zipWith (fun a b => a + b) reconst_loss kl_divergence_l, kl_divergence)

/-- Source `VAE.ratio_loss` (lines 267-287): the five log terms, the
shape assertion, and the negated mean log ratio. -/
def VAE.ratio_loss (P : Prims α) (M : VAEModel α)
    (x local_l_mean local_l_var : Mat α) (batch_index y : List Nat) :
    Except Err (Tensor α) :=
  let o := VAE.inferenceOne P M x batch_index y
  let ps := M.get_prior_params
  match VAE.reconstructionLoss M x o.px_rate o.px_r o.px_dropout with
  | .error e => .error e
  | .ok rec =>
    let log_px_zl := Tensor.vec (rec.map (fun t => -t))
    let log_pl :=
      (Tensor.mat (normalLogProbMat P local_l_mean local_l_var o.library.matD)).sumLastDim
    let log_pz0 := (M.z_encoder.logProb ps.1 ps.2 o.z).sumLastDim
    let log_qz_x0 := (M.z_encoder.logProb o.qz_m o.qz_v o.z).sumLastDim
    let pq :=
      if log_pz0.dim = 2 ∧ log_qz_x0.dim = 2 then (log_pz0.sumDim1, log_qz_x0.sumDim1)
      else (log_pz0, log_qz_x0)
    let log_pz := pq.1
    let log_qz_x := pq.2
    let log_ql_x :=
      (Tensor.mat (normalLogProbMat P o.ql_m.matD o.ql_v.matD o.library.matD)).sumLastDim
    if log_px_zl.shape = log_pl.shape ∧ log_pl.shape = log_pz.shape ∧
        log_pz.shape = log_qz_x.shape ∧ log_qz_x.shape = log_ql_x.shape then
      let log_ratio :=
        Tensor.zipWith (fun a b => a - b)
          (Tensor.zipWith (fun a b => a - b)
            (Tensor.zipWith (fun a b => a + b)
              (Tensor.zipWith (fun a b => a + b) log_px_zl log_pz) log_pl)
            log_qz_x)
          log_ql_x
      .ok ((meanDim0 P log_ratio).map (fun t => -t))
    else .error .assertionError

/-- Modelled from the spec: the `LinearDecoderSCVI` collaborator of
`LDVAE` is not under `src/`; per the spec its `factor_regressor` is the
linear map from the latent space directly to gene expression, whose
per-gene weights (one row per gene) and optional bias are its learnable
parameters. -/
structure LinearDecoderM (α : Type) where
  factor_regressor_weight : Mat α
  factor_regressor_bias : Option (Vec α)

/-- Modelled from the spec: `parameters()` of the factor regressor, the
finite enumeration of its learnable parameter tensors (weight first,
then the bias when present), as torch yields them. -/
def LinearDecoderM.factorRegressorParams (d : LinearDecoderM α) : List (Tensor α) :=
  Tensor.mat d.factor_regressor_weight ::
    (match d.factor_regressor_bias with
     | some b => [Tensor.vec b]
     | none => [])

/-- State of an `LDVAE` instance: the inherited `VAE` state with the
decoder replaced by a `LinearDecoderSCVI`. -/
structure LDVAEModel (α : Type) where
  base : VAEModel α
  linear_decoder : LinearDecoderM α

/-- Source `LDVAE.get_loadings` (lines 346-349): returns
`self.decoder.factor_regressor.parameters()`. -/
def LDVAE.get_loadings (M : LDVAEModel α) : List (Tensor α) :=
  M.linear_decoder.factorRegressorParams

/-- Broadcast product `px_scale * library` with `library` of shape
`(batch, 1)` (or `(n_samples, batch, 1)`): each row of the scale
matrix is multiplied by the row's library value. -/
def mulLib [Mul α] [Zero α] : Tensor α → Tensor α → Tensor α
  | .mat s, .mat l =>
      .mat (List.zipWith (fun srow lrow => srow.map (fun a => a * lrow.headD 0)) s l)
  | .cube s, .cube l =>
      .cube (List.zipWith
        (fun sm lm => List.zipWith (fun srow lrow => srow.map (fun a => a * lrow.headD 0)) sm lm)
        s l)
  | t, _ => t

/-- State of a `MeanVarianceVAE` instance: the inherited `VAE` state plus
the `px_r_net` dispersion network.  `px_r_net` is
`Linear(1, h) ∘ ReLU ∘ Linear(h, 1)` applied after `view(-1, 1)`, hence
an elementwise scalar function. -/
structure MVModel (α : Type) where
  base : VAEModel α
  px_r_net : α → α

/-- The tail of `MeanVarianceVAE.inference` (lines 388-395): decode
discarding the decoder's dispersion output, form `nb_mean = px_scale *
library`, run `px_r_net` elementwise, assert the shape matches
`px_scale`, and exponentiate. -/
def MV.inferenceTail (P : Prims α) (M : MVModel α)
    (qz_m qz_v z ql_m ql_v library : Tensor α) (batch_index y : List Nat) :
    Except Err (InfOut α) :=
  let dec := M.base.decoder.decode M.base.dispersion z library batch_index y
  let px_scale := dec.1
  let px_rate := dec.2.2.1
  let px_dropout := dec.2.2.2
  let nb_mean := mulLib px_scale library
  let px_r0 := nb_mean.map M.px_r_net
  if px_r0.shape = px_scale.shape then
    .ok
      { px_scale := px_scale
        px_r := px_r0.map P.exp
        px_rate := px_rate
        px_dropout := px_dropout
        qz_m := qz_m
        qz_v := qz_v
        z := z
        ql_m := ql_m
        ql_v := ql_v
        library := library }
  else .error .assertionError

/-- Source `MeanVarianceVAE.inference` (lines 369-395): same sampling
structure as `VAE.inference`, but the dispersion comes from `px_r_net`
applied to `px_scale * library`. -/
def MV.inference (P : Prims α) (M : MVModel α) (x : Mat α)
    (batch_index y : List Nat) (n_samples : Nat) : Except Err (InfOut α) :=
  let zz := VAE.encZ P M.base x y
  let ll := VAE.encL P M.base x
  if n_samples > 1 then
    if M.base.z_full_cov then .error .assertionError
    else
      let qz_m := Tensor.cube (List.replicate n_samples zz.1)
      let qz_v := Tensor.cube (List.replicate n_samples zz.2.1)
      let ql_m := Tensor.cube (List.replicate n_samples ll.1)
      let ql_v := Tensor.cube (List.replicate n_samples ll.2.1)
      let z := M.base.z_encoder.sample qz_m qz_v
      let library := M.base.l_encoder.sample ql_m ql_v
      MV.inferenceTail P M qz_m qz_v z ql_m ql_v library batch_index y
  else
    MV.inferenceTail P M (Tensor.mat zz.1) (Tensor.mat zz.2.1) (Tensor.mat zz.2.2)
      (Tensor.mat ll.1) (Tensor.mat ll.2.1) (Tensor.mat ll.2.2) batch_index y

/-- The `Encoder` collaborator as used by `LogNormalPoissonVAE`, with the
global RNG state threaded explicitly through its stochastic calls. -/
structure EncoderR (α : Type) where
  encode : RNG → Mat α → List Nat → (Mat α × Mat α × Mat α) × RNG
  sample : RNG → Tensor α → Tensor α → Tensor α × RNG
  logProb : Tensor α → Tensor α → Tensor α → Tensor α
  klTo : Tensor α → Tensor α → Tensor α → Tensor α → Tensor α

/-- State of a `LogNormalPoissonVAE` instance: hyperparameters, the two
encoders and the `DecoderPoisson` (returning a single rate tensor),
all with explicit RNG threading. -/
structure LNPModel (α : Type) where
  n_input : Nat
  n_batch : Nat
  n_labels : Nat
  n_latent : Nat
  log_variational : Bool
  z_full_cov : Bool
  z_autoregressive : Bool
  z_encoder : EncoderR α
  l_encoder : EncoderR α
  decoder : RNG → Tensor α → Tensor α → List Nat → List Nat → Tensor α × RNG

/-- Source `LogNormalPoissonVAE.get_prior_params` (lines 594-600): the
scale is the identity matrix when full covariance or autoregressive. -/
def LNPModel.get_prior_params (M : LNPModel α) : Tensor α × Tensor α :=
  (Tensor.vec (List.replicate M.n_latent (0 : α)),
   if M.z_full_cov || M.z_autoregressive then Tensor.mat (eyeMat M.n_latent)
   else Tensor.vec (List.replicate M.n_latent (1 : α)))

/-- Output record of `LogNormalPoissonVAE.inference`. -/
structure LNPInfOut (α : Type) where
  px_rate : Tensor α
  qz_m : Tensor α
  qz_v : Tensor α
  z : Tensor α
  ql_m : Tensor α
  ql_v : Tensor α
  library : Tensor α
deriving DecidableEq

/-- Source `LogNormalPoissonVAE.get_sample_scale` (lines 511-512): the
body is `raise NotImplementedError`.  The embedding is pure, so the
model argument is untouched. -/
def LNP.get_sample_scale (_M : LNPModel α) (_x : Mat α)
    (_batch_index _y : List Nat) (_n_samples : Nat) : Except Err (Tensor α) :=
  .error .notImplemented

/-- Source `LogNormalPoissonVAE.get_sample_rate` (lines 514-515):
`raise NotImplementedError`. -/
def LNP.get_sample_rate (_M : LNPModel α) (_x : Mat α)
    (_batch_index _y : List Nat) (_n_samples : Nat) : Except Err (Tensor α) :=
  .error .notImplemented

/-- Source `LogNormalPoissonVAE.get_log_ratio` (lines 517-528):
`raise NotImplementedError`. -/
def LNP.get_log_ratio (_M : LNPModel α) (_x : Mat α)
    (_batch_index _y : List Nat) (_n_samples : Nat) : Except Err (Tensor α) :=
  .error .notImplemented

/-- Source `LogNormalPoissonVAE.scale_from_z` (lines 536-537):
`raise NotImplementedError`. -/
def LNP.scale_from_z (_M : LNPModel α) (_sample_batch : Mat α)
    (_fixed_batch : Nat) : Except Err (Tensor α) :=
  .error .notImplemented

/-- Elementwise negative Poisson log-mass `-(Poisson rate).log_prob x`
with torch broadcasting of the rate tensor against the 2-D input `x`. -/
def poissonNLL (P : Prims α) : Tensor α → Mat α → Tensor α
  | .scalar s, x => .mat (x.map (List.map (fun b => -(P.poissonLogProb s b))))
  | .vec r, x => .mat (x.map (fun row => List.zipWith (fun a b => -(P.poissonLogProb a b)) r row))
  | .mat r, x => .mat (List.zipWith (List.zipWith (fun a b => -(P.poissonLogProb a b))) r x)
  | .cube c, x => .cube (c.map (fun r => List.zipWith (List.zipWith (fun a b => -(P.poissonLogProb a b))) r x))

/-- Source `LogNormalPoissonVAE._reconstruction_loss` (lines 530-534):
the negative Poisson log-probability, an assertion that it is 2-D, and
the sum over the gene dimension (one value per cell). -/
def LNP.reconstructionLoss (P : Prims α) (x : Mat α) (rate : Tensor α) :
    Except Err (Vec α) :=
  let rl := poissonNLL P rate x
  if rl.dim = 2 then .ok (rowSums rl.matD) else .error .assertionError

/-- The input transform of `LogNormalPoissonVAE.inference`. -/
def LNP.xTrans (P : Prims α) (M : LNPModel α) (x : Mat α) : Mat α :=
  if M.log_variational then logTransform P x else x

/-- Source `LogNormalPoissonVAE.inference` specialised to
`n_samples = 1`: the two encoder calls and the Poisson decoder, with the
RNG state threaded through. -/
def LNP.inferenceOne (P : Prims α) (M : LNPModel α) (rng : RNG) (x : Mat α)
    (batch_index y : List Nat) : LNPInfOut α × RNG :=
  let x_ := LNP.xTrans P M x
  let ze := M.z_encoder.encode rng x_ y
  let le := M.l_encoder.encode ze.2 x_ []
  let qz_m := ze.1.1
  let qz_v := ze.1.2.1
  let z := ze.1.2.2
  let ql_m := le.1.1
  let ql_v := le.1.2.1
  let library := le.1.2.2
  let de := M.decoder le.2 (Tensor.mat z) (Tensor.mat library) batch_index y
  ({ px_rate := de.1
     qz_m := Tensor.mat qz_m
     qz_v := Tensor.mat qz_v
     z := Tensor.mat z
     ql_m := Tensor.mat ql_m
     ql_v := Tensor.mat ql_v
     library := Tensor.mat library }, de.2)

/-- Source `LogNormalPoissonVAE.inference` (lines 539-558): with
`n_samples > 1` it first asserts `not self.z_full_cov` before any
sampling or decoding; with `n_samples = 1` it is `inferenceOne`. -/
def LNP.inference (P : Prims α) (M : LNPModel α) (rng : RNG) (x : Mat α)
    (batch_index y : List Nat) (n_samples : Nat) :
    Except Err (LNPInfOut α × RNG) :=
  if n_samples > 1 then
    if M.z_full_cov then .error .assertionError
    else
      let x_ := LNP.xTrans P M x
      let ze := M.z_encoder.encode rng x_ y
      let le := M.l_encoder.encode ze.2 x_ []
      let qz_m := Tensor.cube (List.replicate n_samples ze.1.1)
      let qz_v := Tensor.cube (List.replicate n_samples ze.1.2.1)
      let ql_m := Tensor.cube (List.replicate n_samples le.1.1)
      let ql_v := Tensor.cube (List.replicate n_samples le.1.2.1)
      let zs := M.z_encoder.sample le.2 qz_m qz_v
      let ls := M.l_encoder.sample zs.2 ql_m ql_v
      let de := M.decoder ls.2 zs.1 ls.1 batch_index y
      .ok
        ({ px_rate := de.1
           qz_m := qz_m
           qz_v := qz_v
           z := zs.1
           ql_m := ql_m
           ql_v := ql_v
           library := ls.1 }, de.2)
  else .ok (LNP.inferenceOne P M rng x batch_index y)

/-- Source `LogNormalPoissonVAE.forward` (lines 560-592): reseed the
global RNG with `torch.manual_seed(42)`, run inference, compute the two
KL terms and the Poisson reconstruction loss, and return
`(reconst_loss + kl_divergence_l, kl_divergence_z)`.  The incoming RNG
state is overwritten by the reseed and never read. -/
def LNP.forward (P : Prims α) (M : LNPModel α) (_rng : RNG)
    (x local_l_mean local_l_var : Mat α) (batch_index y : List Nat) :
    Except Err ((Vec α × Tensor α) × RNG) :=
  let r0 := manualSeed 42
  let io := LNP.inferenceOne P M r0 x batch_index y
  let o := io.1
  let ps := M.get_prior_params
  let klz0 := M.z_encoder.klTo o.qz_m o.qz_v ps.1 ps.2
  let kl_divergence_z := if klz0.dim = 2 then klz0.sumDim1 else klz0
  let kl_divergence_l :=
    rowSums (klNormalMat P o.ql_m.matD o.ql_v.matD local_l_mean local_l_var)
  match LNP.reconstructionLoss P x o.px_rate with
  | .error e => .error e
  | .ok reconst_loss =>
      .ok ((List.zipWith (fun a b => a + b) reconst_loss kl_divergence_l,
            kl_divergence_z), io.2)

/-! Named sub-terms of `VAE.forward`, used to state the decomposition of
its return value. -/

/-- The raw `kl_divergence_z` term of `forward` before the
dimension-dependent reduction. -/
def VAE.klzRaw (P : Prims α) (M : VAEModel α) (x : Mat α) (y : List Nat) :
    Tensor α :=
  M.z_encoder.klTo (Tensor.mat (VAE.encZ P M x y).1)
    (Tensor.mat (VAE.encZ P M x y).2.1) M.get_prior_params.1 M.get_prior_params.2

/-- The latent KL term as returned by `forward` (second component). -/
def VAE.latentKL (P : Prims α) (M : VAEModel α) (x : Mat α) (y : List Nat) :
    Tensor α :=
  if (VAE.klzRaw P M x y).dim = 2 then (VAE.klzRaw P M x y).sumDim1
  else VAE.klzRaw P M x y

/-- The library-size KL term `kl_divergence_l` of `forward`: the per-cell
sum of `kl_divergence (Normal ql_m (sqrt ql_v)) (Normal local_l_mean (sqrt local_l_var))`. -/
def VAE.libraryKL (P : Prims α) (M : VAEModel α)
    (x local_l_mean local_l_var : Mat α) : Vec α :=
  rowSums (klNormalMat P (VAE.encL P M x).1 (VAE.encL P M x).2.1
    local_l_mean local_l_var)

/-- Raw latent KL term of `LogNormalPoissonVAE.forward` (whose inference
runs from the reseeded RNG state). -/
def LNP.klzRaw (P : Prims α) (M : LNPModel α) (x : Mat α)
    (batch_index y : List Nat) : Tensor α :=
  let o := (LNP.inferenceOne P M (manualSeed 42) x batch_index y).1
  M.z_encoder.klTo o.qz_m o.qz_v M.get_prior_params.1 M.get_prior_params.2

/-- The latent KL term returned by `LogNormalPoissonVAE.forward`. -/
def LNP.latentKL (P : Prims α) (M : LNPModel α) (x : Mat α)
    (batch_index y : List Nat) : Tensor α :=
  if (LNP.klzRaw P M x batch_index y).dim = 2 then
    (LNP.klzRaw P M x batch_index y).sumDim1
  else LNP.klzRaw P M x batch_index y

/-- The library-size KL term of `LogNormalPoissonVAE.forward`. -/
def LNP.libraryKL (P : Prims α) (M : LNPModel α)
    (x local_l_mean local_l_var : Mat α) (batch_index y : List Nat) : Vec α :=
  let o := (LNP.inferenceOne P M (manualSeed 42) x batch_index y).1
  rowSums (klNormalMat P o.ql_m.matD o.ql_v.matD local_l_mean local_l_var)

/-! Concrete instances over `ℤ`, used to exhibit the theorems'
hypotheses as satisfiable. -/

/-- A concrete `Prims ℤ` instance (`exp` is the positive constant 1). -/
def Pq : Prims ℤ where
  exp := fun _ => 1
  log := fun x => x
  sqrt := fun x => x
  klNormal := fun a b c d => a + b + c + d
  normalLogProb := fun a b c => a + b + c
  poissonLogProb := fun a b => a * b
  divN := fun a _ => a
  exp_pos := fun _ => one_pos

/-- A concrete encoder over `ℤ` that echoes its input. -/
def Encq : EncoderM ℤ where
  encode := fun x _ => (x, x, x)
  sample := fun a _ => a
  logProb := fun _ _ z => z
  klTo := fun a _ _ _ => a

/-- A concrete decoder over `ℤ` that echoes the latent code. -/
def Decq : DecoderM ℤ where
  decode := fun _ z _ _ _ => (z, z, z, z)

/-- A concrete one-gene, one-latent `VAE` state over `ℤ`. -/
def Mq : VAEModel ℤ where
  n_input := 1
  n_batch := 1
  n_labels := 1
  n_latent := 1
  dispersion := .gene
  log_variational := true
  reconstruction_loss := "zinb"
  z_full_cov := false
  px_r := Tensor.vec [0]
  z_encoder := Encq
  l_encoder := Encq
  decoder := Decq
  log_zinb_positive := fun x _ _ _ => rowSums x
  log_nb_positive := fun x _ _ => rowSums x

/-- `Mq` reconfigured with full covariance. -/
def MqFull : VAEModel ℤ := { Mq with z_full_cov := true }

/-- `Mq` reconfigured with an unsupported reconstruction loss string. -/
def MqBad : VAEModel ℤ := { Mq with reconstruction_loss := "poisson" }

/-- A concrete `MeanVarianceVAE` state over `ℤ`. -/
def MVq : MVModel ℤ where
  base := Mq
  px_r_net := fun x => x

/-- A concrete RNG-threaded encoder over `ℤ` (each call advances the
state). -/
def Encrq : EncoderR ℤ where
  encode := fun r x _ => ((x, x, x), r + 1)
  sample := fun r a _ => (a, r + 1)
  logProb := fun _ _ z => z
  klTo := fun a _ _ _ => a

/-- A concrete `LogNormalPoissonVAE` state over `ℤ`. -/
def LMq : LNPModel ℤ where
  n_input := 1
  n_batch := 1
  n_labels := 1
  n_latent := 1
  log_variational := true
  z_full_cov := false
  z_autoregressive := false
  z_encoder := Encrq
  l_encoder := Encrq
  decoder := fun r z _ _ _ => (z, r + 1)

/-- `LMq` reconfigured with full covariance. -/
def LMqFull : LNPModel ℤ := { LMq with z_full_cov := true }

/-! Helper lemmas on the list and tensor combinators. -/

theorem zip3_length_eq {β γ δ ε : Type} (f : β → γ → δ → ε) :
    ∀ (a : List β) (b : List γ) (c : List δ),
      b.length = a.length → c.length = a.length →
      (zip3 f a b c).length = a.length := by
  intro a
  induction a with
  | nil => intro b c _ _; cases b <;> cases c <;> simp [zip3]
  | cons hd tl ih =>
      intro b c hb hc
      cases b with
      | nil => simp at hb
      | cons b bs =>
        cases c with
        | nil => simp at hc
        | cons c cs =>
          simp only [zip3, List.length_cons] at *
          exact congrArg Nat.succ (ih bs cs (Nat.succ_injective hb) (Nat.succ_injective hc))

theorem zip4_length_eq {β γ δ ε ζ : Type} (f : β → γ → δ → ε → ζ) :
    ∀ (a : List β) (b : List γ) (c : List δ) (d : List ε),
      b.length = a.length → c.length = a.length → d.length = a.length →
      (zip4 f a b c d).length = a.length := by
  intro a
  induction a with
  | nil => intro b c d _ _ _; cases b <;> cases c <;> cases d <;> simp [zip4]
  | cons hd tl ih =>
      intro b c d hb hc hd'
      cases b with
      | nil => simp at hb
      | cons b bs =>
        cases c with
        | nil => simp at hc
        | cons c cs =>
          cases d with
          | nil => simp at hd'
          | cons d ds =>
            simp only [zip4, List.length_cons] at *
            exact congrArg Nat.succ
              (ih bs cs ds (Nat.succ_injective hb) (Nat.succ_injective hc)
                (Nat.succ_injective hd'))

theorem rowSums_length (m : Mat α) :
    (rowSums m).length = m.length := by
  simp [rowSums]

theorem tensor_forall_map {p : α → Prop} {f : α → α} (hf : ∀ x, p (f x)) :
    ∀ t : Tensor α, Tensor.Forall p (Tensor.map f t) := by
  intro t
  cases t with
  | scalar x => exact hf x
  | vec v =>
      intro u hu
      obtain ⟨w, _, rfl⟩ := List.mem_map.mp hu
      exact hf w
  | mat m =>
      intro r hr u hu
      obtain ⟨r0, _, rfl⟩ := List.mem_map.mp hr
      obtain ⟨w, _, rfl⟩ := List.mem_map.mp hu
      exact hf w
  | cube c =>
      intro mm hm r hr u hu
      obtain ⟨m0, _, rfl⟩ := List.mem_map.mp hm
      obtain ⟨r0, _, rfl⟩ := List.mem_map.mp hr
      obtain ⟨w, _, rfl⟩ := List.mem_map.mp hu
      exact hf w

@[simp]
theorem Tensor.matD_mat (m : Mat α) : (Tensor.mat m).matD = m := rfl

@[simp]
theorem Tensor.dim_mat (m : Mat α) : (Tensor.mat m).dim = 2 := rfl

@[simp]
theorem Tensor.dim_vec (v : Vec α) : (Tensor.vec v).dim = 1 := rfl

@[simp]
theorem Tensor.sumLastDim_mat (m : Mat α) :
    (Tensor.mat m).sumLastDim = Tensor.vec (rowSums m) := rfl

@[simp]
theorem Tensor.sumDim1_mat (m : Mat α) :
    (Tensor.mat m).sumDim1 = Tensor.vec (rowSums m) := rfl

@[simp]
theorem Tensor.shape_vec (v : Vec α) : (Tensor.vec v).shape = [v.length] := rfl

theorem inferenceOne_qz_m (P : Prims α) (M : VAEModel α) (x : Mat α) (bi y : List Nat) :
    (VAE.inferenceOne P M x bi y).qz_m = Tensor.mat (VAE.encZ P M x y).1 := rfl

theorem inferenceOne_qz_v (P : Prims α) (M : VAEModel α) (x : Mat α) (bi y : List Nat) :
    (VAE.inferenceOne P M x bi y).qz_v = Tensor.mat (VAE.encZ P M x y).2.1 := rfl

theorem inferenceOne_z (P : Prims α) (M : VAEModel α) (x : Mat α) (bi y : List Nat) :
    (VAE.inferenceOne P M x bi y).z = Tensor.mat (VAE.encZ P M x y).2.2 := rfl

theorem inferenceOne_ql_m (P : Prims α) (M : VAEModel α) (x : Mat α) (bi y : List Nat) :
    (VAE.inferenceOne P M x bi y).ql_m = Tensor.mat (VAE.encL P M x).1 := rfl

theorem inferenceOne_ql_v (P : Prims α) (M : VAEModel α) (x : Mat α) (bi y : List Nat) :
    (VAE.inferenceOne P M x bi y).ql_v = Tensor.mat (VAE.encL P M x).2.1 := rfl

theorem inferenceOne_library (P : Prims α) (M : VAEModel α) (x : Mat α) (bi y : List Nat) :
    (VAE.inferenceOne P M x bi y).library = Tensor.mat (VAE.encL P M x).2.2 := rfl

/-- C5: for every input, calling `inference` with `n_samples > 1` on a
model configured with full covariance fails immediately via the explicit
`assert not self.z_full_cov`, before any sampling or decoding; with
`n_samples = 1` the call succeeds regardless of the covariance
structure.  Both the `VAE` and the `LogNormalPoissonVAE` variant are
covered. -/
theorem C5_full_cov_assertion (P : Prims α) :
    (∀ (M : VAEModel α) (x : Mat α) (bi y : List Nat) (n : Nat), 1 < n →
        M.z_full_cov = true →
        VAE.inference P M x bi y n = .error .assertionError) ∧
    (∀ (M : VAEModel α) (x : Mat α) (bi y : List Nat),
        ∃ o, VAE.inference P M x bi y 1 = .ok o) ∧
    (∀ (Mp : LNPModel α) (r : RNG) (x : Mat α) (bi y : List Nat) (n : Nat), 1 < n →
        Mp.z_full_cov = true →
        LNP.inference P Mp r x bi y n = .error .assertionError) ∧
    (∀ (Mp : LNPModel α) (r : RNG) (x : Mat α) (bi y : List Nat),
        ∃ o, LNP.inference P Mp r x bi y 1 = .ok o) := by
  refine ⟨?_, ?_, ?_, ?_⟩
  · intro M x bi y n hn hfc
    simp [VAE.inference, hn, hfc]
  · intro M x bi y
    exact ⟨_, rfl⟩
  · intro Mp r x bi y n hn hfc
    simp [LNP.inference, hn, hfc]
  · intro Mp r x bi y
    exact ⟨_, rfl⟩

/-- Witness for C5: a concrete full-covariance model rejects
`n_samples = 2` and a concrete call with `n_samples = 1` succeeds. -/
theorem C5_full_cov_assertion_witness :
    VAE.inference Pq MqFull [[1]] [0] [0] 2 = .error .assertionError ∧
    LNP.inference Pq LMqFull 0 [[1]] [0] [0] 2 = .error .assertionError :=
  ⟨(C5_full_cov_assertion Pq).1 MqFull [[1]] [0] [0] 2 (by decide) rfl,
   (C5_full_cov_assertion Pq).2.2.1 LMqFull 0 [[1]] [0] [0] 2 (by decide) rfl⟩

/-- C6: the four unimplemented entry points of `LogNormalPoissonVAE`
(`get_sample_scale`, `get_sample_rate`, `get_log_ratio`, `scale_from_z`)
immediately signal `NotImplementedError` for every input; the embedding
is pure, so no model state is modified and no recovery is attempted. -/
theorem C6_poisson_not_implemented (M : LNPModel α) (x : Mat α)
    (bi y : List Nat) (n : Nat) (sample_batch : Mat α) (fixed_batch : Nat) :
    LNP.get_sample_scale M x bi y n = .error .notImplemented ∧
    LNP.get_sample_rate M x bi y n = .error .notImplemented ∧
    LNP.get_log_ratio M x bi y n = .error .notImplemented ∧
    LNP.scale_from_z M sample_batch fixed_batch = .error .notImplemented :=
  ⟨rfl, rfl, rfl, rfl⟩

/-- C8: `LDVAE.get_loadings` returns the learnable parameters of the
linear decoder's factor regressor as a finite enumerable list headed by
the per-gene weight matrix. -/
theorem C8_loadings_finite (M : LDVAEModel α) :
    LDVAE.get_loadings M = M.linear_decoder.factorRegressorParams ∧
    (LDVAE.get_loadings M).headD (Tensor.vec []) =
      Tensor.mat M.linear_decoder.factor_regressor_weight ∧
    (LDVAE.get_loadings M).length ≤ 2 := by
  refine ⟨rfl, rfl, ?_⟩
  unfold LDVAE.get_loadings LinearDecoderM.factorRegressorParams
  cases M.linear_decoder.factor_regressor_bias <;> simp

/-- C10: `_reconstruction_loss` produces a value exactly for the
configured strings `'zinb'` and `'nb'`; for any other string the result
variable is never assigned and the call errors, so under the
precondition the error branch is unreachable. -/
theorem C10_reconstruction_loss_domain (M : VAEModel α) (x : Mat α)
    (px_rate px_r px_dropout : Tensor α) :
    ((M.reconstruction_loss = "zinb" ∨ M.reconstruction_loss = "nb") →
      ∃ v, VAE.reconstructionLoss M x px_rate px_r px_dropout = .ok v) ∧
    (M.reconstruction_loss ≠ "zinb" → M.reconstruction_loss ≠ "nb" →
      VAE.reconstructionLoss M x px_rate px_r px_dropout = .error .unboundLocal) := by
  constructor
  · rintro (h | h)
    · exact ⟨(M.log_zinb_positive x px_rate px_r px_dropout).map (fun t => -t),
        by simp [VAE.reconstructionLoss, h]⟩
    · exact ⟨(M.log_nb_positive x px_rate px_r).map (fun t => -t),
        by simp [VAE.reconstructionLoss, h]⟩
  · intro h1 h2
    simp [VAE.reconstructionLoss, h1, h2]

/-- Witness for C10 at a `'zinb'` model and at a model with the
unsupported string `'poisson'`. -/
theorem C10_reconstruction_loss_domain_witness :
    (∃ v, VAE.reconstructionLoss Mq [[1]] (Tensor.vec []) (Tensor.vec [])
        (Tensor.vec []) = .ok v) ∧
    VAE.reconstructionLoss MqBad [[1]] (Tensor.vec []) (Tensor.vec [])
        (Tensor.vec []) = .error .unboundLocal :=
  ⟨(C10_reconstruction_loss_domain Mq [[1]] (Tensor.vec []) (Tensor.vec [])
      (Tensor.vec [])).1 (Or.inl rfl),
   (C10_reconstruction_loss_domain MqBad [[1]] (Tensor.vec []) (Tensor.vec [])
      (Tensor.vec [])).2 (by decide) (by decide)⟩

/-- C4: for every input and every dispersion mode, the `px_r` returned
by `inference` is strictly positive, because the resolved raw value is
passed through `torch.exp` before being returned (both in `VAE` and in
`MeanVarianceVAE`). -/
theorem C4_px_r_positive (P : Prims α) :
    (∀ (M : VAEModel α) (x : Mat α) (bi y : List Nat) (n : Nat) (o : InfOut α),
        VAE.inference P M x bi y n = .ok o →
        o.px_r.Forall (fun t => 0 < t)) ∧
    (∀ (Mv : MVModel α) (x : Mat α) (bi y : List Nat) (n : Nat) (o : InfOut α),
        MV.inference P Mv x bi y n = .ok o →
        o.px_r.Forall (fun t => 0 < t)) := by
  constructor
  · intro M x bi y n o h
    unfold VAE.inference at h
    split at h
    · split at h
      · exact Except.noConfusion h
      · injection h with h'
        subst h'
        exact tensor_forall_map P.exp_pos _
    · injection h with h'
      subst h'
      exact tensor_forall_map P.exp_pos _
  · intro Mv x bi y n o h
    simp only [MV.inference, MV.inferenceTail] at h
    split at h
    · split at h
      · exact Except.noConfusion h
      · split at h
        · injection h with h'
          subst h'
          exact tensor_forall_map P.exp_pos _
        · exact Except.noConfusion h
    · split at h
      · injection h with h'
        subst h'
        exact tensor_forall_map P.exp_pos _
      · exact Except.noConfusion h

/-- Witness for C4 at the concrete `'gene'`-mode model. -/
theorem C4_px_r_positive_witness :
    Tensor.Forall (fun t => (0 : ℤ) < t)
      ((VAE.inferenceOne Pq Mq [[1]] [0] [0]).px_r) :=
  (C4_px_r_positive Pq).1 Mq [[1]] [0] [0] 1
    (VAE.inferenceOne Pq Mq [[1]] [0] [0]) rfl

/-- C3: the dispersion parameter `px_r` returned by `inference` follows
the configured mode: the global per-gene parameter for `'gene'`,
`F.linear (one_hot batch_index n_batch) px_r` for `'gene-batch'`,
`F.linear (one_hot y n_labels) px_r` for `'gene-label'`, the decoder's
per-cell output for `'gene-cell'`, and in `MeanVarianceVAE` the value of
`px_r_net` on `px_scale * library` (each then exponentiated). -/
theorem C3_dispersion_modes (P : Prims α) (M : VAEModel α) (x : Mat α)
    (bi y : List Nat) :
    (M.dispersion = .gene →
      (VAE.inferenceOne P M x bi y).px_r = M.px_r.map P.exp) ∧
    (M.dispersion = .geneBatch →
      (VAE.inferenceOne P M x bi y).px_r =
        (Tensor.mat (linearF (oneHot bi M.n_batch) M.px_r.matD)).map P.exp) ∧
    (M.dispersion = .geneLabel →
      (VAE.inferenceOne P M x bi y).px_r =
        (Tensor.mat (linearF (oneHot y M.n_labels) M.px_r.matD)).map P.exp) ∧
    (M.dispersion = .geneCell →
      (VAE.inferenceOne P M x bi y).px_r =
        (M.decoder.decode M.dispersion (Tensor.mat (VAE.encZ P M x y).2.2)
          (Tensor.mat (VAE.encL P M x).2.2) bi y).2.1.map P.exp) ∧
    (∀ (Mv : MVModel α) (o : InfOut α),
        MV.inference P Mv x bi y 1 = .ok o →
        o.px_r =
          ((mulLib
              (Mv.base.decoder.decode Mv.base.dispersion
                (Tensor.mat (VAE.encZ P Mv.base x y).2.2)
                (Tensor.mat (VAE.encL P Mv.base x).2.2) bi y).1
              (Tensor.mat (VAE.encL P Mv.base x).2.2)).map
            Mv.px_r_net).map P.exp) := by
  refine ⟨?_, ?_, ?_, ?_, ?_⟩
  · intro h; simp [VAE.inferenceOne, resolvePxR, h]
  · intro h; simp [VAE.inferenceOne, resolvePxR, h]
  · intro h; simp [VAE.inferenceOne, resolvePxR, h]
  · intro h; simp [VAE.inferenceOne, resolvePxR, h]
  · intro Mv o h
    simp only [MV.inference, MV.inferenceTail] at h
    rw [if_neg (by decide)] at h
    split at h
    · injection h with h'
      subst h'
      rfl
    · exact Except.noConfusion h

/-- Witness for C3 at the concrete `'gene'`-mode model. -/
theorem C3_dispersion_modes_witness :
    (VAE.inferenceOne Pq Mq [[1]] [0] [0]).px_r = Mq.px_r.map Pq.exp :=
  (C3_dispersion_modes Pq Mq [[1]] [0] [0]).1 rfl

/-- C9: `LogNormalPoissonVAE.forward` reseeds the global RNG with the
fixed seed 42 at the start of every call, so its full result — returned
loss values and final RNG state — does not depend on the incoming RNG
state (two calls with identical inputs and parameters agree), and the
final global RNG state observable by unrelated code is exactly the one
produced by running inference from the seeded state. -/
theorem C9_forward_reseeds (P : Prims α) (M : LNPModel α)
    (x lm lv : Mat α) (bi y : List Nat) :
    (∀ r₁ r₂ : RNG,
        LNP.forward P M r₁ x lm lv bi y = LNP.forward P M r₂ x lm lv bi y) ∧
    (∀ (r : RNG) (out : Vec α × Tensor α) (rf : RNG),
        LNP.forward P M r x lm lv bi y = .ok (out, rf) →
        rf = (LNP.inferenceOne P M (manualSeed 42) x bi y).2) := by
  constructor
  · intro r₁ r₂
    rfl
  · intro r out rf h
    simp only [LNP.forward] at h
    split at h
    · exact Except.noConfusion h
    · injection h with h'
      obtain ⟨h1, h2⟩ := Prod.mk.inj h'
      exact h2.symm

/-- Witness for C9: at the concrete model every call ends with the RNG
state 45 produced from seed 42, whatever state it started from. -/
theorem C9_forward_reseeds_witness :
    (45 : RNG) = (LNP.inferenceOne Pq LMq (manualSeed 42) [[1]] [0] [0]).2 :=
  (C9_forward_reseeds Pq LMq [[1]] [[0]] [[1]] [0] [0]).2 7
    ([3], Tensor.vec [2]) 45 (by rfl)

/-- C1: `forward` returns a 2-tuple whose first component is the
reconstruction loss plus the per-cell KL divergence between the
library-size posterior `Normal(ql_m, sqrt ql_v)` and the prior
`Normal(local_l_mean, sqrt local_l_var)`, and whose second component is
the latent KL divergence alone, reported separately and not included in
the first component — for `VAE` and for `LogNormalPoissonVAE`. -/
theorem C1_forward_components (P : Prims α) :
    (∀ (M : VAEModel α) (x lm lv : Mat α) (bi y : List Nat) (rec : Vec α),
        VAE.reconstructionLoss M x (VAE.inferenceOne P M x bi y).px_rate
          (VAE.inferenceOne P M x bi y).px_r
          (VAE.inferenceOne P M x bi y).px_dropout = .ok rec →
        VAE.forward P M x lm lv bi y =
          .ok (List.zipWith (fun a b => a + b) rec (VAE.libraryKL P M x lm lv),
               VAE.latentKL P M x y)) ∧
    (∀ (Mp : LNPModel α) (r : RNG) (x lm lv : Mat α) (bi y : List Nat) (rec : Vec α),
        LNP.reconstructionLoss P x
          ((LNP.inferenceOne P Mp (manualSeed 42) x bi y).1).px_rate = .ok rec →
        LNP.forward P Mp r x lm lv bi y =
          .ok ((List.zipWith (fun a b => a + b) rec (LNP.libraryKL P Mp x lm lv bi y),
                LNP.latentKL P Mp x bi y),
               (LNP.inferenceOne P Mp (manualSeed 42) x bi y).2)) := by
  constructor
  · intro M x lm lv bi y rec h
    simp only [VAE.forward]
    rw [h]
    rfl
  · intro Mp r x lm lv bi y rec h
    simp only [LNP.forward]
    rw [h]
    rfl

/-- Witness for C1 at the concrete models. -/
theorem C1_forward_components_witness :
    VAE.forward Pq Mq [[1]] [[0]] [[1]] [0] [0] =
      .ok (List.zipWith (fun a b => a + b) [-1]
            (VAE.libraryKL Pq Mq [[1]] [[0]] [[1]]),
           VAE.latentKL Pq Mq [[1]] [0]) :=
  (C1_forward_components Pq).1 Mq [[1]] [[0]] [[1]] [0] [0] [-1] (by rfl)

/-- C2: under the shape contracts of the external collaborators, both
tensors returned by `forward` are one-dimensional of length
`batch_size` — the reconstruction loss and both KL terms reduce to one
value per cell before being combined — and likewise the Poisson variant's
`_reconstruction_loss` reduces to one value per cell. -/
theorem C2_per_cell_shapes (P : Prims α) (M : VAEModel α)
    (x lm lv : Mat α) (bi y : List Nat)
    (hrl : M.reconstruction_loss = "zinb" ∨ M.reconstruction_loss = "nb")
    (hzinb : ∀ pr pxr pd : Tensor α,
      (M.log_zinb_positive x pr pxr pd).length = x.length)
    (hnb : ∀ pr pxr : Tensor α, (M.log_nb_positive x pr pxr).length = x.length)
    (hqlm : (VAE.encL P M x).1.length = x.length)
    (hqlv : (VAE.encL P M x).2.1.length = x.length)
    (hlm : lm.length = x.length) (hlv : lv.length = x.length)
    (hklz : (∃ m, VAE.klzRaw P M x y = Tensor.mat m ∧ m.length = x.length) ∨
            (∃ w, VAE.klzRaw P M x y = Tensor.vec w ∧ w.length = x.length)) :
    (∃ v t, VAE.forward P M x lm lv bi y = .ok (v, Tensor.vec t) ∧
        v.length = x.length ∧ t.length = x.length) ∧
    (∀ rate : Mat α, rate.length = x.length →
        ∃ w, LNP.reconstructionLoss P x (Tensor.mat rate) = .ok w ∧
          w.length = x.length) := by
  have hrecE : ∃ rec,
      VAE.reconstructionLoss M x (VAE.inferenceOne P M x bi y).px_rate
        (VAE.inferenceOne P M x bi y).px_r
        (VAE.inferenceOne P M x bi y).px_dropout = Except.ok rec ∧
      rec.length = x.length := by
    rcases hrl with h | h
    · refine ⟨(M.log_zinb_positive x (VAE.inferenceOne P M x bi y).px_rate
        (VAE.inferenceOne P M x bi y).px_r
        (VAE.inferenceOne P M x bi y).px_dropout).map (fun t => -t), ?_, ?_⟩
      · simp [VAE.reconstructionLoss, h]
      · simp [hzinb]
    · refine ⟨(M.log_nb_positive x (VAE.inferenceOne P M x bi y).px_rate
        (VAE.inferenceOne P M x bi y).px_r).map (fun t => -t), ?_, ?_⟩
      · simp [VAE.reconstructionLoss, h]
      · simp [hnb]
  obtain ⟨rec, hrec, hreclen⟩ := hrecE
  have hkll : (rowSums (klNormalMat P (VAE.encL P M x).1 (VAE.encL P M x).2.1
      lm lv)).length = x.length := by
    rw [rowSums_length]
    unfold klNormalMat map4Mat
    rw [zip4_length_eq _ _ _ _ _ (hqlv.trans hqlm.symm) (hlm.trans hqlm.symm)
      (hlv.trans hqlm.symm)]
    exact hqlm
  constructor
  · rcases hklz with ⟨m, hm, hmlen⟩ | ⟨w, hw, hwlen⟩
    · refine ⟨List.zipWith (fun a b => a + b) rec
        (rowSums (klNormalMat P (VAE.inferenceOne P M x bi y).ql_m.matD
          (VAE.inferenceOne P M x bi y).ql_v.matD lm lv)), rowSums m, ?_, ?_, ?_⟩
      · simp only [VAE.forward]
        rw [hrec,
          show M.z_encoder.klTo (VAE.inferenceOne P M x bi y).qz_m
            (VAE.inferenceOne P M x bi y).qz_v M.get_prior_params.1
            M.get_prior_params.2 = VAE.klzRaw P M x y from rfl, hm]
        rfl
      · rw [List.length_zipWith, hreclen]
        rw [inferenceOne_ql_m, inferenceOne_ql_v, Tensor.matD_mat, Tensor.matD_mat,
          hkll]
        exact Nat.min_self _
      · rw [rowSums_length]; exact hmlen
    · refine ⟨List.zipWith (fun a b => a + b) rec
        (rowSums (klNormalMat P (VAE.inferenceOne P M x bi y).ql_m.matD
          (VAE.inferenceOne P M x bi y).ql_v.matD lm lv)), w, ?_, ?_, ?_⟩
      · simp only [VAE.forward]
        rw [hrec,
          show M.z_encoder.klTo (VAE.inferenceOne P M x bi y).qz_m
            (VAE.inferenceOne P M x bi y).qz_v M.get_prior_params.1
            M.get_prior_params.2 = VAE.klzRaw P M x y from rfl, hw]
        rfl
      · rw [List.length_zipWith, hreclen]
        rw [inferenceOne_ql_m, inferenceOne_ql_v, Tensor.matD_mat, Tensor.matD_mat,
          hkll]
        exact Nat.min_self _
      · exact hwlen
  · intro rate hrate
    refine ⟨rowSums (poissonNLL P (Tensor.mat rate) x).matD, rfl, ?_⟩
    rw [rowSums_length]
    simp only [poissonNLL, Tensor.matD_mat]
    rw [List.length_zipWith, hrate]
    exact Nat.min_self _

/-- Witness for C2 at the concrete one-cell model. -/
theorem C2_per_cell_shapes_witness :
    ∃ v t, VAE.forward Pq Mq [[1]] [[0]] [[1]] [0] [0] = .ok (v, Tensor.vec t) ∧
      v.length = ([[(1 : ℤ)]] : Mat ℤ).length ∧
      t.length = ([[(1 : ℤ)]] : Mat ℤ).length :=
  (C2_per_cell_shapes Pq Mq [[1]] [[0]] [[1]] [0] [0] (Or.inl rfl)
    (fun _ _ _ => rfl) (fun _ _ => rfl) rfl rfl rfl rfl
    (Or.inl ⟨(VAE.encZ Pq Mq [[1]] [0]).1, rfl, rfl⟩)).1

/-- C7: in `ratio_loss`, under the shape contracts of the external
collaborators for a well-formed batch, the five log terms all reduce to
shape `(batch_size,)` and the explicit shape assertion holds, so the
call returns a value instead of failing. -/
theorem C7_ratio_loss_assertion (P : Prims α) (M : VAEModel α)
    (x lm lv : Mat α) (bi y : List Nat)
    (hrl : M.reconstruction_loss = "zinb" ∨ M.reconstruction_loss = "nb")
    (hzinb : ∀ pr pxr pd : Tensor α,
      (M.log_zinb_positive x pr pxr pd).length = x.length)
    (hnb : ∀ pr pxr : Tensor α, (M.log_nb_positive x pr pxr).length = x.length)
    (hqlm : (VAE.encL P M x).1.length = x.length)
    (hqlv : (VAE.encL P M x).2.1.length = x.length)
    (hlib : (VAE.encL P M x).2.2.length = x.length)
    (hlm : lm.length = x.length) (hlv : lv.length = x.length)
    (hpz : ∃ m, M.z_encoder.logProb M.get_prior_params.1 M.get_prior_params.2
        (Tensor.mat (VAE.encZ P M x y).2.2) = Tensor.mat m ∧
        m.length = x.length)
    (hqz : ∃ m, M.z_encoder.logProb (Tensor.mat (VAE.encZ P M x y).1)
        (Tensor.mat (VAE.encZ P M x y).2.1)
        (Tensor.mat (VAE.encZ P M x y).2.2) = Tensor.mat m ∧
        m.length = x.length) :
    ∃ v, VAE.ratio_loss P M x lm lv bi y = .ok v := by
  have hrecE : ∃ rec,
      VAE.reconstructionLoss M x (VAE.inferenceOne P M x bi y).px_rate
        (VAE.inferenceOne P M x bi y).px_r
        (VAE.inferenceOne P M x bi y).px_dropout = Except.ok rec ∧
      rec.length = x.length := by
    rcases hrl with h | h
    · refine ⟨(M.log_zinb_positive x (VAE.inferenceOne P M x bi y).px_rate
        (VAE.inferenceOne P M x bi y).px_r
        (VAE.inferenceOne P M x bi y).px_dropout).map (fun t => -t), ?_, ?_⟩
      · simp [VAE.reconstructionLoss, h]
      · simp [hzinb]
    · refine ⟨(M.log_nb_positive x (VAE.inferenceOne P M x bi y).px_rate
        (VAE.inferenceOne P M x bi y).px_r).map (fun t => -t), ?_, ?_⟩
      · simp [VAE.reconstructionLoss, h]
      · simp [hnb]
  obtain ⟨rec, hrec, hreclen⟩ := hrecE
  obtain ⟨m1, hm1, hl1⟩ := hpz
  obtain ⟨m2, hm2, hl2⟩ := hqz
  have hpl : (rowSums (normalLogProbMat P lm lv (VAE.encL P M x).2.2)).length
      = x.length := by
    rw [rowSums_length]
    unfold normalLogProbMat map3Mat
    rw [zip3_length_eq _ _ _ _ (hlv.trans hlm.symm) (hlib.trans hlm.symm)]
    exact hlm
  have hqlx : (rowSums (normalLogProbMat P (VAE.encL P M x).1
      (VAE.encL P M x).2.1 (VAE.encL P M x).2.2)).length = x.length := by
    rw [rowSums_length]
    unfold normalLogProbMat map3Mat
    rw [zip3_length_eq _ _ _ _ (hqlv.trans hqlm.symm) (hlib.trans hqlm.symm)]
    exact hqlm
  have h1 : (rowSums m1).length = x.length := by rw [rowSums_length]; exact hl1
  have h2 : (rowSums m2).length = x.length := by rw [rowSums_length]; exact hl2
  cases hq : VAE.ratio_loss P M x lm lv bi y with
  | ok v => exact ⟨v, rfl⟩
  | error e =>
      exfalso
      simp only [VAE.ratio_loss] at hq
      rw [hrec] at hq
      simp only [inferenceOne_z, inferenceOne_qz_m, inferenceOne_qz_v,
        inferenceOne_ql_m, inferenceOne_ql_v, inferenceOne_library,
        Tensor.matD_mat] at hq
      rw [hm1, hm2] at hq
      simp [Tensor.shape, Tensor.dim, hreclen, hpl, hqlx, h1, h2] at hq

/-- Witness for C7 at the concrete one-cell model. -/
theorem C7_ratio_loss_assertion_witness :
    ∃ v, VAE.ratio_loss Pq Mq [[1]] [[0]] [[1]] [0] [0] = .ok v :=
  C7_ratio_loss_assertion Pq Mq [[1]] [[0]] [[1]] [0] [0] (Or.inl rfl)
    (fun _ _ _ => rfl) (fun _ _ => rfl) rfl rfl rfl rfl rfl
    ⟨(VAE.encZ Pq Mq [[1]] [0]).2.2, rfl, rfl⟩
    ⟨(VAE.encZ Pq Mq [[1]] [0]).2.2, rfl, rfl⟩

end SCVI
